import Mathlib

/-!
Shallow embedding of the register-context-switch core of generator-rs
(src/reg_context.rs, src/detail/x86_64_unix.rs, src/detail/aarch64_unix.rs).

Memory is byte-addressed: one 64-bit word is stored per address, and every
address the embedded code touches is a multiple of the 8-byte machine word,
so a word store at `a` models the hardware store to bytes `[a, a+8)`.
Code addresses (the two trampolines, entry functions, the return labels of
the inline-asm blocks) are abstract parameters, as the linker would assign
them; they are stored and compared but never executed symbolically.
-/

namespace GenRs

/-- Machine memory: the word stored at each (word-aligned) byte address. -/
abbrev Mem := Nat → Nat

/-- Store the word `v` at address `a`. -/
def wr (m : Mem) (a v : Nat) : Mem := fun x => if x = a then v else m x

/-- The external `Stack` collaborator: a contiguous region `[lo, hi)`;
`hi` is `stack.end()`, the high address (the stack grows down). -/
structure Stack where
  lo : Nat
  hi : Nat

namespace X64

/-- The x86_64 `Registers` record (src/detail/x86_64_unix.rs, lines 298-302):
only the stack pointer is kept in the record, every callee-saved register
lives in the stack frame built by the switch routines. -/
structure Registers where
  sp : Nat

/-- Source `Registers::new` (x86_64_unix.rs lines 304-307). -/
def Registers.new : Registers := ⟨0⟩

/-- Source `Registers::root` (x86_64_unix.rs lines 309-312). -/
def Registers.root : Registers := Registers.new

/-- Source `Registers::get_sp`. -/
def Registers.get_sp (r : Registers) : Nat := r.sp

/-- Source `Registers::set_sp`. -/
def Registers.set_sp (_r : Registers) (sp : Nat) : Registers := ⟨sp⟩

/-- Source `Registers::prefetch` (x86_64_unix.rs lines 324-331): skipped
(`none`) when the saved stack pointer is the null sentinel, otherwise a
cache hint for the saved stack pointer (`some` of the hinted address). -/
def Registers.prefetch (r : Registers) : Option Nat :=
  if r.sp = 0 then none else some r.sp

/-- The placeholder written into the CFA slot of a fresh frame
(x86_64_unix.rs line 181). -/
def CFA_PLACEHOLDER : Nat := 0xdeaddeaddead0cfa

/-- Source `initialize_call_frame` (x86_64_unix.rs lines 65-191): starting
from `StackPointer::new(stack.end())`, push six words building the two
synthetic call frames, and save the resulting stack pointer in the record.
`t1` and `t2` are the code addresses of `trampoline_1` and `trampoline_2`,
`fptr` the entry function's address, `stackEnd` is `stack.end()`. -/
def initialize_call_frame (t1 t2 fptr : Nat) (mem : Mem) (stackEnd : Nat) :
    Mem × Registers :=
  let m1 := wr mem (stackEnd - 8) 0
  let m2 := wr m1 (stackEnd - 16) fptr
  let m3 := wr m2 (stackEnd - 24) (t1 + 2)
  let m4 := wr m3 (stackEnd - 32) CFA_PLACEHOLDER
  let frame := stackEnd - 32
  let m5 := wr m4 (stackEnd - 40) (t2 + 1)
  let m6 := wr m5 (stackEnd - 48) frame
  (m6, ⟨stackEnd - 48⟩)

/-- Machine state at the moment a switch routine's final `jmpq *%rax`
executes: the memory, `%rsp` after both pops, `%rdi` (the passed argument)
and `%rsi` (the parked stack pointer of the suspended source context).
The two popped values — the jump target and the restored `%rbp` — are the
words at `rsp - 8` and `rsp - 16`, still in place in the memory (a pop
reads without overwriting); they are exposed as `target` and `rbp`. -/
structure SwitchOut where
  mem : Mem
  rsp : Nat
  rdi : Nat
  rsi : Nat

/-- The jump target popped into `%rax`: the word that sat at the loaded
stack pointer plus 8, i.e. at `rsp - 8` after both pops. -/
def SwitchOut.target (s : SwitchOut) : Nat := s.mem (s.rsp - 8)

/-- The `%rbp` value popped first: the word that sat at the loaded stack
pointer, i.e. at `rsp - 16` after both pops. -/
def SwitchOut.rbp (s : SwitchOut) : Nat := s.mem (s.rsp - 16)

/-- Source `swap_link` (x86_64_unix.rs lines 206-263), executed from a
context whose stack pointer is `rsp` and frame pointer is `rbp`: push the
asm block's return label and `%rbp`, write the parked stack pointer into the
CFA slot 32 bytes below `newStackBase`, pass it in `%rsi`, load `newSp`,
pop the destination's `%rbp` and jump target. -/
def swap_link (arg newSp newStackBase retLabel : Nat) (mem : Mem)
    (rsp rbp : Nat) : SwitchOut :=
  let m1 := wr mem (rsp - 8) retLabel
  let m2 := wr m1 (rsp - 16) rbp
  let m3 := wr m2 (newStackBase - 32) (rsp - 16)
  { mem := m3, rsp := newSp + 16, rdi := arg, rsi := rsp - 16 }

/-- Source `swap` (x86_64_unix.rs lines 266-296): identical to `swap_link`
but without the write to the CFA slot. -/
def swap (arg newSp retLabel : Nat) (mem : Mem) (rsp rbp : Nat) : SwitchOut :=
  let m1 := wr mem (rsp - 8) retLabel
  let m2 := wr m1 (rsp - 16) rbp
  { mem := m2, rsp := newSp + 16, rdi := arg, rsi := rsp - 16 }

/-- Machine state at the moment `trampoline_2`'s `call *16(%rsp)` transfers
to the entry function: `retInside` is the return address the call pushed
(the instruction after the call, inside `trampoline_2`); `rsp` is the
entry function's initial stack pointer, one word below the trampoline's. -/
structure Tramp2Call where
  mem : Mem
  rsp : Nat
  rdi : Nat
  rsi : Nat

/-- The function-pointer slot `16(%rsp)` that the call instruction reads
from the synthetic frame: relative to the post-push stack pointer it is the
word at `rsp + 24`, which the push (at `rsp - 8` before adjustment) never
aliases. -/
def Tramp2Call.callee (t : Tramp2Call) : Nat := t.mem (t.rsp + 24)

/-- Source `trampoline_2`, first half (x86_64_unix.rs lines 122-140):
entered at code address `t2 + 1` (skipping the initial nop), it performs
`call *16(%rsp)` from the state `s` the switch routine handed over. -/
def trampoline_2_call (retInside : Nat) (s : SwitchOut) : Tramp2Call :=
  { mem := wr s.mem (s.rsp - 8) retInside,
    rsp := s.rsp - 8, rdi := s.rdi, rsi := s.rsi }

/-- Source `trampoline_2`, second half (x86_64_unix.rs lines 142-160), run
when the entry function returns: `movq %rsi,%rsp; popq %rbp;
xorq %rsi,%rsi; popq %rax; jmpq *%rax`. `rdi` and `rsi` are whatever the
entry function left in those registers; `%rsi` is zeroed before the jump,
marking the context finished. The two pops leave `rsp = rsi + 16`, so the
derived `target` and `rbp` are the words at the parent's parked stack
pointer plus 8 and at the parked stack pointer itself. -/
def trampoline_2_ret (rdi rsi : Nat) (mem : Mem) : SwitchOut :=
  { mem := mem, rsp := rsi + 16, rdi := rdi, rsi := 0 }

/-- Source `RegContext` (src/reg_context.rs lines 6-9): the portable wrapper
owning one `Registers` value. -/
structure RegContext where
  regs : Registers

/-- Source `RegContext::root` (reg_context.rs lines 20-24). -/
def RegContext.root : RegContext := ⟨Registers.root⟩

/-- Source `RegContext::empty` (reg_context.rs lines 27-31). -/
def RegContext.empty : RegContext := ⟨Registers.new⟩

/-- Source `RegContext::set_sp` (reg_context.rs lines 34-36). -/
def RegContext.set_sp (c : RegContext) (sp : Nat) : RegContext :=
  ⟨c.regs.set_sp sp⟩

/-- Source `RegContext::init_with` (reg_context.rs lines 44-49): install the
initial frame on the given stack. -/
def RegContext.init_with (_c : RegContext) (t1 t2 init : Nat) (mem : Mem)
    (stack : Stack) : Mem × RegContext :=
  let p := initialize_call_frame t1 t2 init mem stack.hi
  (p.1, ⟨p.2⟩)

/-- The Rust-side tail of `RegContext::swap` and `RegContext::swap_link`
(reg_context.rs lines 69-86) once the native switch has returned
`(ret, ret_sp)`: store `ret_sp` into `dst` (the finished sentinel `None`
is the word 0) and hand `ret` back to the caller. -/
def RegContext.finish_switch (dst : RegContext) (ret ret_sp : Nat) :
    RegContext × Nat :=
  (dst.set_sp ret_sp, ret)

/-- Abstract parameters of a run that links a parent context with one
freshly initialized child context, as in `test_swap_context`
(reg_context.rs lines 103-135): the code addresses of the two trampolines
(`t1`, `t2`) and of the entry function (`fp`); the child stack `[lo, E)`
with `E` its `stack.end()`; the parent's machine state (`prsp`, `prbp`) at
its `swap_link` call sites and the child callback's machine state (`crsp`,
`crbp`) at its `swap` call site; the return labels of the parent's four
inline-asm blocks (`L1`..`L4`) and of the child's single one (`CL`); the
return address `R` that `trampoline_2`'s call instruction pushes; and the
initial memory `mem0`. -/
structure RunParams where
  t1 : Nat
  t2 : Nat
  fp : Nat
  lo : Nat
  E : Nat
  prsp : Nat
  prbp : Nat
  crsp : Nat
  crbp : Nat
  L1 : Nat
  L2 : Nat
  L3 : Nat
  L4 : Nat
  CL : Nat
  R : Nat
  mem0 : Mem

/-- Frame fabrication on the child stack: `ctx.init_with(init_fn, &stk)`. -/
def initStage (p : RunParams) : Mem × Registers :=
  initialize_call_frame p.t1 p.t2 p.fp p.mem0 p.E

/-- The parent's first linked switch,
`RegContext::swap_link(&mut ctx, stk.end(), arg)`: the native half, up to
the jump into the freshly fabricated child frame. -/
def link1 (p : RunParams) (arg : Nat) : SwitchOut :=
  swap_link arg (initStage p).2.sp p.E p.L1 (initStage p).1 p.prsp p.prbp

/-- Control arrives in `trampoline_2`, which calls the entry function with
the argument in `%rdi` and the parent's parked stack pointer in `%rsi`. -/
def entry1 (p : RunParams) (arg : Nat) : Tramp2Call :=
  trampoline_2_call p.R (link1 p arg)

/-- A child whose entry function returns immediately, touching neither
`%rdi`, `%rsi` nor memory: `trampoline_2`'s second half runs on the
registers the entry function left and switches back to the parent. -/
def immediateRun (p : RunParams) (arg : Nat) : SwitchOut :=
  trampoline_2_ret (entry1 p arg).rdi (entry1 p arg).rsi (entry1 p arg).mem

/-- The parent's `RegContext::swap_link` returns: the destination context
after the Rust wrapper stores the returned stack pointer, paired with the
returned value. -/
def immediateRunCtx (p : RunParams) (arg : Nat) : RegContext × Nat :=
  RegContext.finish_switch ⟨(initStage p).2⟩ (immediateRun p arg).rdi
    (immediateRun p arg).rsi

/-- The child callback's first plain swap back to the parent
(reg_context.rs lines 105-118): it sends the counter value 42, targeting
the parent's parked stack pointer received as the entry function's second
argument, from the child's own frame (`crsp`, `crbp`). -/
def childSwap1 (p : RunParams) (cb : Nat) : SwitchOut :=
  swap 42 (entry1 p cb).rsi p.CL (entry1 p cb).mem p.crsp p.crbp

/-- The parent's second linked switch, `swap_link(&mut ctx, stk.end(),
ret + 1)`, targeting the stack pointer the child parked at. -/
def link2 (p : RunParams) (cb : Nat) : SwitchOut :=
  swap_link ((childSwap1 p cb).rdi + 1) (childSwap1 p cb).rsi p.E p.L2
    (childSwap1 p cb).mem p.prsp p.prbp

/-- The child's second plain swap: its counter is now 42 + 1. -/
def childSwap2 (p : RunParams) (cb : Nat) : SwitchOut :=
  swap (42 + 1) (entry1 p cb).rsi p.CL (link2 p cb).mem p.crsp p.crbp

/-- The parent's third linked switch, again passing `ret + 1`. -/
def link3 (p : RunParams) (cb : Nat) : SwitchOut :=
  swap_link ((childSwap2 p cb).rdi + 1) (childSwap2 p cb).rsi p.E p.L3
    (childSwap2 p cb).mem p.prsp p.prbp

/-- The child's third plain swap: its counter is now 42 + 1 + 1. -/
def childSwap3 (p : RunParams) (cb : Nat) : SwitchOut :=
  swap (42 + 1 + 1) (entry1 p cb).rsi p.CL (link3 p cb).mem p.crsp p.crbp

/-- The parent's fourth linked switch, passing the stop value 0. -/
def link4 (p : RunParams) (cb : Nat) : SwitchOut :=
  swap_link 0 (childSwap3 p cb).rsi p.E p.L4 (childSwap3 p cb).mem p.prsp
    p.prbp

/-- The child received 0: the callback and the entry function return, and
`trampoline_2`'s second half runs with `%rdi`/`%rsi` as the child's last
swap left them. -/
def finalRet (p : RunParams) (cb : Nat) : SwitchOut :=
  trampoline_2_ret (link4 p cb).rdi (link4 p cb).rsi (link4 p cb).mem

/-- The parent's fourth `RegContext::swap_link` returns and stores the
returned stack pointer into the child's context. -/
def finalCtx (p : RunParams) (cb : Nat) : RegContext × Nat :=
  RegContext.finish_switch ⟨(initStage p).2⟩ (finalRet p cb).rdi
    (finalRet p cb).rsi

/-- A concrete, well-formed instantiation of the run parameters, used to
witness the scenario theorems: child stack `[0, 1024)`, child frame at 256,
parent frame at 2048, distinct code addresses and labels, zeroed memory. -/
def pW : RunParams :=
  ⟨4096, 4352, 4608, 0, 1024, 2048, 21, 256, 23, 31, 32, 33, 34, 35, 36,
    fun _ => 0⟩

end X64

namespace A64

/-- The aarch64 `Registers` record (src/detail/aarch64_unix.rs lines 12-18):
16 slots holding the 13 callee-saved registers x19..x28, fp (x29), lr (x30)
and sp. Slot indices: x19 is 0, x20 is 1, x21 is 2, fp is 10, lr is 11,
sp is 12. -/
structure Registers where
  gpr : Fin 16 → Nat

/-- Source `Registers::new` (aarch64_unix.rs lines 21-23). -/
def Registers.new : Registers := ⟨fun _ => 0⟩

/-- Source `Registers::prefetch` (aarch64_unix.rs lines 25-31): hint the
record's own address (`selfAddr`) and the value of slot 1 (x20); the model
returns the list of hinted addresses. There is no null-sentinel check. -/
def Registers.prefetch (selfAddr : Nat) (r : Registers) : List Nat :=
  [selfAddr, r.gpr 1]

/-- Modelled from the spec: `align_down` lives in `crate::detail` (not under
src/); it aligns the stack top down to the target ABI call-frame alignment
of 16 bytes ("aligned to the target ABI's call-frame alignment"). -/
def align_down (a : Nat) : Nat := a - a % 16

/-- Modelled from the spec: `mut_offset` lives in `crate::detail` (not under
src/); it is pointer offset arithmetic in units of the 8-byte machine word,
as used by the frame initializer on `*mut usize` values. -/
def mut_offset (p : Nat) (i : Int) : Nat := ((p : Int) + i * 8).toNat

/-- Source `initialize_call_frame` (aarch64_unix.rs lines 34-74): stash the
two word arguments and the entry-function pointer in x19/x20/x21, point fp
and sp four machine words below the aligned stack top, point lr at the
`bootstrap_green_task` native helper, and zero four words at the stack top
for unwinding. -/
def initialize_call_frame (bootstrap : Nat) (fptr arg arg2 : Nat)
    (regs : Registers) (mem : Mem) (stack : Stack) : Registers × Mem :=
  let sp := align_down stack.hi
  let g1 := Function.update regs.gpr 0 arg
  let g2 := Function.update g1 1 arg2
  let g3 := Function.update g2 2 fptr
  let g4 := Function.update g3 10 (mut_offset sp (-4))
  let g5 := Function.update g4 11 bootstrap
  let g6 := Function.update g5 12 (mut_offset sp (-4))
  let m1 := wr mem (mut_offset sp 0) 0
  let m2 := wr m1 (mut_offset sp (-1)) 0
  let m3 := wr m2 (mut_offset sp (-2)) 0
  let m4 := wr m3 (mut_offset sp (-3)) 0
  (⟨g6⟩, m4)

end A64

namespace X64

/-- C9: `RegContext::root()` and `RegContext::empty()` produce identical,
all-zero register state; a fresh root context's saved stack pointer is the
null sentinel, the same as an uninitialized context's. -/
theorem root_eq_empty :
    Registers.root = Registers.new ∧ Registers.new.sp = 0 ∧
    RegContext.root = RegContext.empty ∧
    RegContext.root.regs.sp = 0 ∧ RegContext.empty.regs.sp = 0 :=
  ⟨rfl, rfl, rfl, rfl, rfl⟩

/-- C3: on x86_64, `initialize_call_frame` writes exactly six machine words
below the stack top — alignment padding, the entry-function pointer, the
outer return address `trampoline_1 + 2`, the CFA/link slot placeholder, the
inner return address `trampoline_2 + 1`, and a back-pointer to the outer
frame — and saves `stack top - 48` as the context's stack pointer. -/
theorem initialize_call_frame_layout (t1 t2 fptr : Nat) (mem : Mem) (E : Nat)
    (h : 48 ≤ E) :
    (initialize_call_frame t1 t2 fptr mem E).1 (E - 8) = 0 ∧
    (initialize_call_frame t1 t2 fptr mem E).1 (E - 16) = fptr ∧
    (initialize_call_frame t1 t2 fptr mem E).1 (E - 24) = t1 + 2 ∧
    (initialize_call_frame t1 t2 fptr mem E).1 (E - 32) = CFA_PLACEHOLDER ∧
    (initialize_call_frame t1 t2 fptr mem E).1 (E - 40) = t2 + 1 ∧
    (initialize_call_frame t1 t2 fptr mem E).1 (E - 48) = E - 32 ∧
    (initialize_call_frame t1 t2 fptr mem E).2.sp = E - 48 := by
  refine ⟨?_, ?_, ?_, ?_, ?_, ?_, ?_⟩ <;>
    simp only [initialize_call_frame, wr] <;> (try split_ifs) <;> omega

theorem initialize_call_frame_layout_witness :
    48 ≤ 1024 ∧
    ((initialize_call_frame 3 5 7 (fun _ => 0) 1024).1 (1024 - 8) = 0 ∧
    (initialize_call_frame 3 5 7 (fun _ => 0) 1024).1 (1024 - 16) = 7 ∧
    (initialize_call_frame 3 5 7 (fun _ => 0) 1024).1 (1024 - 24) = 3 + 2 ∧
    (initialize_call_frame 3 5 7 (fun _ => 0) 1024).1 (1024 - 32) =
      CFA_PLACEHOLDER ∧
    (initialize_call_frame 3 5 7 (fun _ => 0) 1024).1 (1024 - 40) = 5 + 1 ∧
    (initialize_call_frame 3 5 7 (fun _ => 0) 1024).1 (1024 - 48) =
      1024 - 32 ∧
    (initialize_call_frame 3 5 7 (fun _ => 0) 1024).2.sp = 1024 - 48) :=
  ⟨by omega, initialize_call_frame_layout 3 5 7 (fun _ => 0) 1024 (by omega)⟩

/-- C10: on x86_64, frame fabrication modifies nothing but the six words at
the top of the supplied stack region and the saved stack-pointer field:
every address other than the six slots keeps its previous value, and the
resulting register record is exactly the saved stack pointer. -/
theorem init_frame_effect (t1 t2 fptr : Nat) (mem : Mem) (E a : Nat)
    (h1 : a ≠ E - 8) (h2 : a ≠ E - 16) (h3 : a ≠ E - 24) (h4 : a ≠ E - 32)
    (h5 : a ≠ E - 40) (h6 : a ≠ E - 48) :
    (initialize_call_frame t1 t2 fptr mem E).1 a = mem a ∧
    (initialize_call_frame t1 t2 fptr mem E).2 = ⟨E - 48⟩ := by
  refine ⟨?_, rfl⟩
  simp only [initialize_call_frame, wr]
  split_ifs <;> simp_all

theorem init_frame_effect_witness :
    (5 : Nat) ≠ 1024 - 8 ∧ (5 : Nat) ≠ 1024 - 16 ∧ (5 : Nat) ≠ 1024 - 24 ∧
    (5 : Nat) ≠ 1024 - 32 ∧ (5 : Nat) ≠ 1024 - 40 ∧ (5 : Nat) ≠ 1024 - 48 ∧
    ((initialize_call_frame 3 5 7 (fun x => x + 1) 1024).1 5 = 5 + 1 ∧
    (initialize_call_frame 3 5 7 (fun x => x + 1) 1024).2 = ⟨1024 - 48⟩) :=
  ⟨by omega, by omega, by omega, by omega, by omega, by omega,
    init_frame_effect 3 5 7 (fun x => x + 1) 1024 5 (by omega) (by omega)
      (by omega) (by omega) (by omega) (by omega)⟩

/-- C2: before control transfers, `swap_link` writes the resuming context's
parked stack pointer (its `%rsp` after the two pushes, also passed in
`%rsi`) into the slot 32 bytes — four machine words — below the target
stack's bottom, and in a freshly fabricated frame that very slot is the CFA
slot `initialize_call_frame` filled with the `0xdeaddeaddead0cfa`
placeholder. -/
theorem swap_link_fills_cfa_slot (arg newSp base retLabel : Nat) (mem : Mem)
    (rsp rbp : Nat) (t1 t2 fptr : Nat) (mem0 : Mem) (E : Nat) (hE : 48 ≤ E) :
    (swap_link arg newSp base retLabel mem rsp rbp).mem (base - 32) =
      rsp - 16 ∧
    (swap_link arg newSp base retLabel mem rsp rbp).rsi = rsp - 16 ∧
    (initialize_call_frame t1 t2 fptr mem0 E).1 (E - 32) = CFA_PLACEHOLDER ∧
    (swap_link arg newSp E retLabel (initialize_call_frame t1 t2 fptr mem0 E).1
      rsp rbp).mem (E - 32) = rsp - 16 := by
  refine ⟨?_, rfl, ?_, ?_⟩
  · simp only [swap_link, wr]
    split_ifs <;> omega
  · simp only [initialize_call_frame, wr]
    split_ifs <;> omega
  · simp only [swap_link, wr]
    split_ifs <;> omega

theorem swap_link_fills_cfa_slot_witness :
    48 ≤ 1024 ∧
    ((swap_link 9 200 512 11 (fun _ => 0) 3000 13).mem (512 - 32) =
      3000 - 16 ∧
    (swap_link 9 200 512 11 (fun _ => 0) 3000 13).rsi = 3000 - 16 ∧
    (initialize_call_frame 3 5 7 (fun _ => 0) 1024).1 (1024 - 32) =
      CFA_PLACEHOLDER ∧
    (swap_link 9 200 1024 11 (initialize_call_frame 3 5 7 (fun _ => 0) 1024).1
      3000 13).mem (1024 - 32) = 3000 - 16) :=
  ⟨by omega,
    swap_link_fills_cfa_slot 9 200 512 11 (fun _ => 0) 3000 13 3 5 7
      (fun _ => 0) 1024 (by omega)⟩

theorem wr_self (m : Mem) (a v : Nat) : wr m a v a = v := by simp [wr]

theorem wr_ne {m : Mem} {a v x : Nat} (h : x ≠ a) : wr m a v x = m x := by
  simp [wr, h]

theorem swap_mem_hit_ret {arg newSp retLabel : Nat} {mem : Mem}
    {rsp rbp x : Nat} (hx : x = rsp - 8) (h : 16 ≤ rsp) :
    (swap arg newSp retLabel mem rsp rbp).mem x = retLabel := by
  subst hx; simp only [swap]; rw [wr_ne (by omega), wr_self]

theorem swap_mem_hit_rbp {arg newSp retLabel : Nat} {mem : Mem}
    {rsp rbp x : Nat} (hx : x = rsp - 16) :
    (swap arg newSp retLabel mem rsp rbp).mem x = rbp := by
  subst hx; simp only [swap]; rw [wr_self]

theorem swap_mem_skip {arg newSp retLabel : Nat} {mem : Mem}
    {rsp rbp x : Nat} (h1 : x ≠ rsp - 8) (h2 : x ≠ rsp - 16) :
    (swap arg newSp retLabel mem rsp rbp).mem x = mem x := by
  simp only [swap]; rw [wr_ne h2, wr_ne h1]

theorem swap_link_mem_hit_cfa {arg newSp base retLabel : Nat} {mem : Mem}
    {rsp rbp x : Nat} (hx : x = base - 32) :
    (swap_link arg newSp base retLabel mem rsp rbp).mem x = rsp - 16 := by
  subst hx; simp only [swap_link]; rw [wr_self]

theorem swap_link_mem_hit_ret {arg newSp base retLabel : Nat} {mem : Mem}
    {rsp rbp x : Nat} (hx : x = rsp - 8) (h : 16 ≤ rsp)
    (hb : rsp - 8 ≠ base - 32) :
    (swap_link arg newSp base retLabel mem rsp rbp).mem x = retLabel := by
  subst hx; simp only [swap_link]
  rw [wr_ne hb, wr_ne (by omega), wr_self]

theorem swap_link_mem_hit_rbp {arg newSp base retLabel : Nat} {mem : Mem}
    {rsp rbp x : Nat} (hx : x = rsp - 16) (hb : rsp - 16 ≠ base - 32) :
    (swap_link arg newSp base retLabel mem rsp rbp).mem x = rbp := by
  subst hx; simp only [swap_link]; rw [wr_ne hb, wr_self]

theorem swap_link_mem_skip {arg newSp base retLabel : Nat} {mem : Mem}
    {rsp rbp x : Nat} (h1 : x ≠ rsp - 8) (h2 : x ≠ rsp - 16)
    (h3 : x ≠ base - 32) :
    (swap_link arg newSp base retLabel mem rsp rbp).mem x = mem x := by
  simp only [swap_link]; rw [wr_ne h3, wr_ne h2, wr_ne h1]

theorem t2call_mem_hit {retInside : Nat} {s : SwitchOut} {x : Nat}
    (hx : x = s.rsp - 8) :
    (trampoline_2_call retInside s).mem x = retInside := by
  subst hx; simp only [trampoline_2_call]; rw [wr_self]

theorem t2call_mem_skip {retInside : Nat} {s : SwitchOut} {x : Nat}
    (h : x ≠ s.rsp - 8) :
    (trampoline_2_call retInside s).mem x = s.mem x := by
  simp only [trampoline_2_call]; rw [wr_ne h]

theorem icf_mem_pad {t1 t2 fptr : Nat} {mem : Mem} {E x : Nat}
    (hx : x = E - 8) (h : 48 ≤ E) :
    (initialize_call_frame t1 t2 fptr mem E).1 x = 0 := by
  subst hx; simp only [initialize_call_frame]
  rw [wr_ne (by omega), wr_ne (by omega), wr_ne (by omega),
    wr_ne (by omega), wr_ne (by omega), wr_self]

theorem icf_mem_fptr {t1 t2 fptr : Nat} {mem : Mem} {E x : Nat}
    (hx : x = E - 16) (h : 48 ≤ E) :
    (initialize_call_frame t1 t2 fptr mem E).1 x = fptr := by
  subst hx; simp only [initialize_call_frame]
  rw [wr_ne (by omega), wr_ne (by omega), wr_ne (by omega),
    wr_ne (by omega), wr_self]

theorem icf_mem_ret1 {t1 t2 fptr : Nat} {mem : Mem} {E x : Nat}
    (hx : x = E - 24) (h : 48 ≤ E) :
    (initialize_call_frame t1 t2 fptr mem E).1 x = t1 + 2 := by
  subst hx; simp only [initialize_call_frame]
  rw [wr_ne (by omega), wr_ne (by omega), wr_ne (by omega),
    wr_self]

theorem icf_mem_cfa {t1 t2 fptr : Nat} {mem : Mem} {E x : Nat}
    (hx : x = E - 32) (h : 48 ≤ E) :
    (initialize_call_frame t1 t2 fptr mem E).1 x = CFA_PLACEHOLDER := by
  subst hx; simp only [initialize_call_frame]
  rw [wr_ne (by omega), wr_ne (by omega), wr_self]

theorem icf_mem_ret2 {t1 t2 fptr : Nat} {mem : Mem} {E x : Nat}
    (hx : x = E - 40) (h : 48 ≤ E) :
    (initialize_call_frame t1 t2 fptr mem E).1 x = t2 + 1 := by
  subst hx; simp only [initialize_call_frame]
  rw [wr_ne (by omega), wr_self]

theorem icf_mem_frame {t1 t2 fptr : Nat} {mem : Mem} {E x : Nat}
    (hx : x = E - 48) :
    (initialize_call_frame t1 t2 fptr mem E).1 x = E - 32 := by
  subst hx; simp only [initialize_call_frame]; rw [wr_self]

theorem icf_mem_skip {t1 t2 fptr : Nat} {mem : Mem} {E x : Nat}
    (h1 : x ≠ E - 8) (h2 : x ≠ E - 16) (h3 : x ≠ E - 24) (h4 : x ≠ E - 32)
    (h5 : x ≠ E - 40) (h6 : x ≠ E - 48) :
    (initialize_call_frame t1 t2 fptr mem E).1 x = mem x := by
  simp only [initialize_call_frame]
  rw [wr_ne h6, wr_ne h5, wr_ne h4, wr_ne h3,
    wr_ne h2, wr_ne h1]

theorem initStage_sp (p : RunParams) : (initStage p).2.sp = p.E - 48 := rfl

theorem link1_rsp (p : RunParams) (a : Nat) :
    (link1 p a).rsp = p.E - 48 + 16 := rfl

theorem link1_rsi (p : RunParams) (a : Nat) :
    (link1 p a).rsi = p.prsp - 16 := rfl

theorem entry1_rsp (p : RunParams) (a : Nat) :
    (entry1 p a).rsp = p.E - 48 + 16 - 8 := rfl

theorem entry1_rsi (p : RunParams) (a : Nat) :
    (entry1 p a).rsi = p.prsp - 16 := rfl

theorem entry1_rdi (p : RunParams) (a : Nat) : (entry1 p a).rdi = a := rfl

theorem immediateRun_rsp (p : RunParams) (a : Nat) :
    (immediateRun p a).rsp = p.prsp - 16 + 16 := rfl

theorem childSwap1_rsp (p : RunParams) (cb : Nat) :
    (childSwap1 p cb).rsp = p.prsp - 16 + 16 := rfl

theorem childSwap1_rsi (p : RunParams) (cb : Nat) :
    (childSwap1 p cb).rsi = p.crsp - 16 := rfl

theorem link2_rsp (p : RunParams) (cb : Nat) :
    (link2 p cb).rsp = p.crsp - 16 + 16 := rfl

theorem link2_rsi (p : RunParams) (cb : Nat) :
    (link2 p cb).rsi = p.prsp - 16 := rfl

theorem childSwap2_rsp (p : RunParams) (cb : Nat) :
    (childSwap2 p cb).rsp = p.prsp - 16 + 16 := rfl

theorem childSwap2_rsi (p : RunParams) (cb : Nat) :
    (childSwap2 p cb).rsi = p.crsp - 16 := rfl

theorem link3_rsp (p : RunParams) (cb : Nat) :
    (link3 p cb).rsp = p.crsp - 16 + 16 := rfl

theorem link3_rsi (p : RunParams) (cb : Nat) :
    (link3 p cb).rsi = p.prsp - 16 := rfl

theorem childSwap3_rsp (p : RunParams) (cb : Nat) :
    (childSwap3 p cb).rsp = p.prsp - 16 + 16 := rfl

theorem childSwap3_rsi (p : RunParams) (cb : Nat) :
    (childSwap3 p cb).rsi = p.crsp - 16 := rfl

theorem link4_rsp (p : RunParams) (cb : Nat) :
    (link4 p cb).rsp = p.crsp - 16 + 16 := rfl

theorem link4_rsi (p : RunParams) (cb : Nat) :
    (link4 p cb).rsi = p.prsp - 16 := rfl

theorem finalRet_rsp (p : RunParams) (cb : Nat) :
    (finalRet p cb).rsp = p.prsp - 16 + 16 := rfl

/-- C1: a context whose entry function returns immediately leaves, after
exactly one linked switch into it, the destination context's saved stack
pointer equal to the null/finished sentinel 0: the linked switch jumps to
`trampoline_2 + 1`, the trampoline calls the entry function read from the
synthetic frame, its second half zeroes `%rsi` before jumping back to the
parent's return label, and the Rust wrapper of `RegContext::swap_link`
stores that returned value into the destination's registers. -/
theorem swap_link_immediate_return_finishes (p : RunParams) (arg : Nat)
    (h1 : 48 ≤ p.E) (h2 : p.E + 16 ≤ p.prsp) :
    (link1 p arg).target = p.t2 + 1 ∧
    (entry1 p arg).callee = p.fp ∧
    (entry1 p arg).mem (entry1 p arg).rsp = p.R ∧
    (immediateRun p arg).target = p.L1 ∧
    (immediateRun p arg).rbp = p.prbp ∧
    (immediateRun p arg).rsi = 0 ∧
    (immediateRunCtx p arg).1.regs.sp = 0 := by
  refine ⟨?_, ?_, ?_, ?_, ?_, rfl, rfl⟩
  · simp only [SwitchOut.target, link1_rsp]
    simp only [link1]
    rw [swap_link_mem_skip (by omega) (by omega) (by omega)]
    simp only [initStage]
    rw [icf_mem_ret2 (by omega) (by omega)]
  · simp only [Tramp2Call.callee, entry1_rsp]
    simp only [entry1]
    rw [t2call_mem_skip (by rw [link1_rsp] <;> omega)]
    simp only [link1]
    rw [swap_link_mem_skip (by omega) (by omega) (by omega)]
    simp only [initStage]
    rw [icf_mem_fptr (by omega) (by omega)]
  · simp only [entry1_rsp]
    simp only [entry1]
    rw [t2call_mem_hit (by rw [link1_rsp] <;> omega)]
  · simp only [SwitchOut.target, immediateRun_rsp]
    simp only [immediateRun, trampoline_2_ret]
    simp only [entry1]
    rw [t2call_mem_skip (by rw [link1_rsp] <;> omega)]
    simp only [link1]
    rw [swap_link_mem_hit_ret (by omega) (by omega) (by omega)]
  · simp only [SwitchOut.rbp, immediateRun_rsp]
    simp only [immediateRun, trampoline_2_ret]
    simp only [entry1]
    rw [t2call_mem_skip (by rw [link1_rsp] <;> omega)]
    simp only [link1]
    rw [swap_link_mem_hit_rbp (by omega) (by omega)]

theorem swap_link_immediate_return_finishes_witness :
    48 ≤ pW.E ∧ pW.E + 16 ≤ pW.prsp ∧
    ((link1 pW 7).target = pW.t2 + 1 ∧
    (entry1 pW 7).callee = pW.fp ∧
    (entry1 pW 7).mem (entry1 pW 7).rsp = pW.R ∧
    (immediateRun pW 7).target = pW.L1 ∧
    (immediateRun pW 7).rbp = pW.prbp ∧
    (immediateRun pW 7).rsi = 0 ∧
    (immediateRunCtx pW 7).1.regs.sp = 0) :=
  ⟨by decide, by decide,
    swap_link_immediate_return_finishes pW 7 (by decide) (by decide)⟩


theorem swap_rsp (arg newSp retLabel : Nat) (mem : Mem) (rsp rbp : Nat) :
    (swap arg newSp retLabel mem rsp rbp).rsp = newSp + 16 := rfl

theorem swap_link_rsp (arg newSp base retLabel : Nat) (mem : Mem)
    (rsp rbp : Nat) :
    (swap_link arg newSp base retLabel mem rsp rbp).rsp = newSp + 16 := rfl

/-- C5: the `test_swap_context` scenario. Driving a context whose entry
function loops on plain swaps with a counter starting at 42 from the
creator with linked switches passing in turn 42's seed (the callback
address), then the previous return plus 1 twice, then 0, yields observed
returns 42, 43, 44 — each switch lands on the peer's parked return label
with the peer's frame pointer restored — and the final linked switch
returns through trampoline_2's tail, leaving the context's saved stack
pointer equal to 0. -/
theorem test_swap_context (p : RunParams) (cb : Nat)
    (h1 : 64 ≤ p.E) (h2 : p.lo + 16 ≤ p.crsp) (h3 : p.crsp + 56 ≤ p.E)
    (h4 : p.E + 16 ≤ p.prsp) :
    (link1 p cb).target = p.t2 + 1 ∧
    (entry1 p cb).callee = p.fp ∧
    (childSwap1 p cb).target = p.L1 ∧
    (childSwap1 p cb).rdi = 42 ∧
    (childSwap1 p cb).rbp = p.prbp ∧
    (link2 p cb).target = p.CL ∧
    (link2 p cb).rdi = 43 ∧
    (link2 p cb).rbp = p.crbp ∧
    (childSwap2 p cb).target = p.L2 ∧
    (childSwap2 p cb).rdi = 43 ∧
    (link3 p cb).target = p.CL ∧
    (link3 p cb).rdi = 44 ∧
    (childSwap3 p cb).target = p.L3 ∧
    (childSwap3 p cb).rdi = 44 ∧
    (link4 p cb).target = p.CL ∧
    (link4 p cb).rdi = 0 ∧
    (link4 p cb).mem (entry1 p cb).rsp = p.R ∧
    (finalRet p cb).target = p.L4 ∧
    (finalRet p cb).rbp = p.prbp ∧
    (finalRet p cb).rsi = 0 ∧
    (finalCtx p cb).1.regs.sp = 0 := by
  refine ⟨?_, ?_, ?_, rfl, ?_, ?_, rfl, ?_, ?_, rfl, ?_, rfl, ?_, rfl, ?_,
    rfl, ?_, ?_, ?_, rfl, rfl⟩
  · simp only [SwitchOut.target, link1_rsp]
    simp only [link1]
    rw [swap_link_mem_skip (by omega) (by omega) (by omega)]
    simp only [initStage]
    rw [icf_mem_ret2 (by omega) (by omega)]
  · simp only [Tramp2Call.callee, entry1_rsp]
    simp only [entry1]
    rw [t2call_mem_skip (by rw [link1_rsp] <;> omega)]
    simp only [link1]
    rw [swap_link_mem_skip (by omega) (by omega) (by omega)]
    simp only [initStage]
    rw [icf_mem_fptr (by omega) (by omega)]
  · simp only [SwitchOut.target, childSwap1_rsp]
    simp only [childSwap1]
    rw [swap_mem_skip (by omega) (by omega)]
    simp only [entry1]
    rw [t2call_mem_skip (by rw [link1_rsp] <;> omega)]
    simp only [link1]
    rw [swap_link_mem_hit_ret (by omega) (by omega) (by omega)]
  · simp only [SwitchOut.rbp, childSwap1_rsp]
    simp only [childSwap1]
    rw [swap_mem_skip (by omega) (by omega)]
    simp only [entry1]
    rw [t2call_mem_skip (by rw [link1_rsp] <;> omega)]
    simp only [link1]
    rw [swap_link_mem_hit_rbp (by omega) (by omega)]
  · simp only [SwitchOut.target, link2_rsp]
    simp only [link2]
    rw [swap_link_mem_skip (by omega) (by omega) (by omega)]
    simp only [childSwap1]
    rw [swap_mem_hit_ret (by omega) (by omega)]
  · simp only [SwitchOut.rbp, link2_rsp]
    simp only [link2]
    rw [swap_link_mem_skip (by omega) (by omega) (by omega)]
    simp only [childSwap1]
    rw [swap_mem_hit_rbp (by omega)]
  · simp only [SwitchOut.target, childSwap2_rsp]
    simp only [childSwap2]
    rw [swap_mem_skip (by omega) (by omega)]
    simp only [link2]
    rw [swap_link_mem_hit_ret (by omega) (by omega) (by omega)]
  · simp only [SwitchOut.target, link3_rsp]
    simp only [link3]
    rw [swap_link_mem_skip (by omega) (by omega) (by omega)]
    simp only [childSwap2]
    rw [swap_mem_hit_ret (by omega) (by omega)]
  · simp only [SwitchOut.target, childSwap3_rsp]
    simp only [childSwap3]
    rw [swap_mem_skip (by omega) (by omega)]
    simp only [link3]
    rw [swap_link_mem_hit_ret (by omega) (by omega) (by omega)]
  · simp only [SwitchOut.target, link4_rsp]
    simp only [link4]
    rw [swap_link_mem_skip (by omega) (by omega) (by omega)]
    simp only [childSwap3]
    rw [swap_mem_hit_ret (by omega) (by omega)]
  · simp only [entry1_rsp]
    simp only [link4]
    rw [swap_link_mem_skip (by omega) (by omega) (by omega)]
    simp only [childSwap3]
    rw [swap_mem_skip (by omega) (by omega)]
    simp only [link3]
    rw [swap_link_mem_skip (by omega) (by omega) (by omega)]
    simp only [childSwap2]
    rw [swap_mem_skip (by omega) (by omega)]
    simp only [link2]
    rw [swap_link_mem_skip (by omega) (by omega) (by omega)]
    simp only [childSwap1]
    rw [swap_mem_skip (by omega) (by omega)]
    simp only [entry1]
    rw [t2call_mem_hit (by rw [link1_rsp] <;> omega)]
  · simp only [SwitchOut.target, finalRet_rsp]
    simp only [finalRet, trampoline_2_ret]
    simp only [link4]
    rw [swap_link_mem_hit_ret (by omega) (by omega) (by omega)]
  · simp only [SwitchOut.rbp, finalRet_rsp]
    simp only [finalRet, trampoline_2_ret]
    simp only [link4]
    rw [swap_link_mem_hit_rbp (by omega) (by omega)]

theorem test_swap_context_witness :
    64 ≤ pW.E ∧ pW.lo + 16 ≤ pW.crsp ∧ pW.crsp + 56 ≤ pW.E ∧
    pW.E + 16 ≤ pW.prsp ∧
    ((link1 pW 5).target = pW.t2 + 1 ∧
    (entry1 pW 5).callee = pW.fp ∧
    (childSwap1 pW 5).target = pW.L1 ∧
    (childSwap1 pW 5).rdi = 42 ∧
    (childSwap1 pW 5).rbp = pW.prbp ∧
    (link2 pW 5).target = pW.CL ∧
    (link2 pW 5).rdi = 43 ∧
    (link2 pW 5).rbp = pW.crbp ∧
    (childSwap2 pW 5).target = pW.L2 ∧
    (childSwap2 pW 5).rdi = 43 ∧
    (link3 pW 5).target = pW.CL ∧
    (link3 pW 5).rdi = 44 ∧
    (childSwap3 pW 5).target = pW.L3 ∧
    (childSwap3 pW 5).rdi = 44 ∧
    (link4 pW 5).target = pW.CL ∧
    (link4 pW 5).rdi = 0 ∧
    (link4 pW 5).mem (entry1 pW 5).rsp = pW.R ∧
    (finalRet pW 5).target = pW.L4 ∧
    (finalRet pW 5).rbp = pW.prbp ∧
    (finalRet pW 5).rsi = 0 ∧
    (finalCtx pW 5).1.regs.sp = 0) :=
  ⟨by decide, by decide, by decide, by decide,
    test_swap_context pW 5 (by decide) (by decide) (by decide) (by decide)⟩

/-- C6: argument fidelity. Any machine-word value `v` — 0 and the all-ones
word included — passed to `swap` or `swap_link` is delivered bit-for-bit to
the resumed side: a linked switch into a fresh frame hands `v` to the entry
function as its first argument (in `%rdi`), a plain swap back to the parked
parent makes the parent's `swap_link` return `v`, and a linked switch into
the parked child makes the child's `swap` return `v`. -/
theorem argument_fidelity (p : RunParams) (cb v : Nat)
    (h1 : 64 ≤ p.E) (h2 : p.lo + 16 ≤ p.crsp) (h3 : p.crsp + 56 ≤ p.E)
    (h4 : p.E + 16 ≤ p.prsp) (hv : v < 2 ^ 64) :
    (link1 p v).target = p.t2 + 1 ∧
    (entry1 p v).callee = p.fp ∧
    (entry1 p v).rdi = v ∧
    (swap v (entry1 p cb).rsi p.CL (entry1 p cb).mem p.crsp p.crbp).target =
      p.L1 ∧
    (swap v (entry1 p cb).rsi p.CL (entry1 p cb).mem p.crsp p.crbp).rdi =
      v ∧
    (swap_link v (childSwap1 p cb).rsi p.E p.L2 (childSwap1 p cb).mem
      p.prsp p.prbp).target = p.CL ∧
    (swap_link v (childSwap1 p cb).rsi p.E p.L2 (childSwap1 p cb).mem
      p.prsp p.prbp).rdi = v := by
  refine ⟨?_, ?_, rfl, ?_, rfl, ?_, rfl⟩
  · simp only [SwitchOut.target, link1_rsp]
    simp only [link1]
    rw [swap_link_mem_skip (by omega) (by omega) (by omega)]
    simp only [initStage]
    rw [icf_mem_ret2 (by omega) (by omega)]
  · simp only [Tramp2Call.callee, entry1_rsp]
    simp only [entry1]
    rw [t2call_mem_skip (by rw [link1_rsp] <;> omega)]
    simp only [link1]
    rw [swap_link_mem_skip (by omega) (by omega) (by omega)]
    simp only [initStage]
    rw [icf_mem_fptr (by omega) (by omega)]
  · simp only [SwitchOut.target, swap_rsp, entry1_rsi]
    rw [swap_mem_skip (by omega) (by omega)]
    simp only [entry1]
    rw [t2call_mem_skip (by rw [link1_rsp] <;> omega)]
    simp only [link1]
    rw [swap_link_mem_hit_ret (by omega) (by omega) (by omega)]
  · simp only [SwitchOut.target, swap_link_rsp, childSwap1_rsi]
    rw [swap_link_mem_skip (by omega) (by omega) (by omega)]
    simp only [childSwap1]
    rw [swap_mem_hit_ret (by omega) (by omega)]

theorem argument_fidelity_witness :
    64 ≤ pW.E ∧ pW.lo + 16 ≤ pW.crsp ∧ pW.crsp + 56 ≤ pW.E ∧
    pW.E + 16 ≤ pW.prsp ∧ 18446744073709551615 < 2 ^ 64 ∧
    ((link1 pW 18446744073709551615).target = pW.t2 + 1 ∧
    (entry1 pW 18446744073709551615).callee = pW.fp ∧
    (entry1 pW 18446744073709551615).rdi = 18446744073709551615 ∧
    (swap 18446744073709551615 (entry1 pW 5).rsi pW.CL (entry1 pW 5).mem
      pW.crsp pW.crbp).target = pW.L1 ∧
    (swap 18446744073709551615 (entry1 pW 5).rsi pW.CL (entry1 pW 5).mem
      pW.crsp pW.crbp).rdi = 18446744073709551615 ∧
    (swap_link 18446744073709551615 (childSwap1 pW 5).rsi pW.E pW.L2
      (childSwap1 pW 5).mem pW.prsp pW.prbp).target = pW.CL ∧
    (swap_link 18446744073709551615 (childSwap1 pW 5).rsi pW.E pW.L2
      (childSwap1 pW 5).mem pW.prsp pW.prbp).rdi = 18446744073709551615) :=
  ⟨by decide, by decide, by decide, by decide, by decide,
    argument_fidelity pW 5 18446744073709551615 (by decide) (by decide)
      (by decide) (by decide) (by decide)⟩

/-- C8: the saved-stack-pointer invariant along the public operations of
the linked run. An uninitialized context's saved stack pointer is the null
sentinel; `init_with` establishes a pointer inside the owned stack
`[lo, E)`; each of the parent's linked switches stores back either a
pointer inside that same stack (the child's parked stack pointer, while
the child is suspended) or, once the child's entry function has returned,
the null sentinel. -/
theorem saved_sp_invariant (p : RunParams) (cb : Nat)
    (h1 : 64 ≤ p.E) (h2 : p.lo + 16 ≤ p.crsp) (h3 : p.crsp + 56 ≤ p.E)
    (h4 : p.E + 16 ≤ p.prsp) :
    RegContext.empty.regs.sp = 0 ∧
    (p.lo ≤ (initStage p).2.sp ∧ (initStage p).2.sp < p.E) ∧
    (p.lo ≤ (childSwap1 p cb).rsi ∧ (childSwap1 p cb).rsi < p.E) ∧
    (p.lo ≤ (childSwap2 p cb).rsi ∧ (childSwap2 p cb).rsi < p.E) ∧
    (p.lo ≤ (childSwap3 p cb).rsi ∧ (childSwap3 p cb).rsi < p.E) ∧
    (finalCtx p cb).1.regs.sp = 0 := by
  refine ⟨rfl, ?_, ?_, ?_, ?_, rfl⟩
  · rw [initStage_sp]; omega
  · rw [childSwap1_rsi]; omega
  · rw [childSwap2_rsi]; omega
  · rw [childSwap3_rsi]; omega

theorem saved_sp_invariant_witness :
    64 ≤ pW.E ∧ pW.lo + 16 ≤ pW.crsp ∧ pW.crsp + 56 ≤ pW.E ∧
    pW.E + 16 ≤ pW.prsp ∧
    (RegContext.empty.regs.sp = 0 ∧
    (pW.lo ≤ (initStage pW).2.sp ∧ (initStage pW).2.sp < pW.E) ∧
    (pW.lo ≤ (childSwap1 pW 5).rsi ∧ (childSwap1 pW 5).rsi < pW.E) ∧
    (pW.lo ≤ (childSwap2 pW 5).rsi ∧ (childSwap2 pW 5).rsi < pW.E) ∧
    (pW.lo ≤ (childSwap3 pW 5).rsi ∧ (childSwap3 pW 5).rsi < pW.E) ∧
    (finalCtx pW 5).1.regs.sp = 0) :=
  ⟨by decide, by decide, by decide, by decide,
    saved_sp_invariant pW 5 (by decide) (by decide) (by decide) (by decide)⟩

end X64

namespace A64

/-- C7: on aarch64, `initialize_call_frame` stores the two caller-supplied
word arguments and the entry-function pointer in the x19/x20/x21 slots,
points both the saved frame-pointer slot and the saved stack-pointer slot
four machine words (32 bytes) below the aligned stack top, points the saved
link-register slot at the `bootstrap_green_task` routine, and zero-fills
four machine words of unwind-sentinel space at the stack top. -/
theorem initialize_call_frame_slots (bootstrap fptr arg arg2 : Nat)
    (regs : Registers) (mem : Mem) (stack : Stack) (h : 32 ≤ stack.hi) :
    (initialize_call_frame bootstrap fptr arg arg2 regs mem stack).1.gpr 0 =
      arg ∧
    (initialize_call_frame bootstrap fptr arg arg2 regs mem stack).1.gpr 1 =
      arg2 ∧
    (initialize_call_frame bootstrap fptr arg arg2 regs mem stack).1.gpr 2 =
      fptr ∧
    (initialize_call_frame bootstrap fptr arg arg2 regs mem stack).1.gpr 10 =
      align_down stack.hi - 32 ∧
    (initialize_call_frame bootstrap fptr arg arg2 regs mem stack).1.gpr 11 =
      bootstrap ∧
    (initialize_call_frame bootstrap fptr arg arg2 regs mem stack).1.gpr 12 =
      align_down stack.hi - 32 ∧
    (initialize_call_frame bootstrap fptr arg arg2 regs mem stack).2
      (align_down stack.hi) = 0 ∧
    (initialize_call_frame bootstrap fptr arg arg2 regs mem stack).2
      (align_down stack.hi - 8) = 0 ∧
    (initialize_call_frame bootstrap fptr arg arg2 regs mem stack).2
      (align_down stack.hi - 16) = 0 ∧
    (initialize_call_frame bootstrap fptr arg arg2 regs mem stack).2
      (align_down stack.hi - 24) = 0 := by
  refine ⟨?_, ?_, ?_, ?_, ?_, ?_, ?_, ?_, ?_, ?_⟩ <;>
    simp only [initialize_call_frame, Function.update_apply, wr, mut_offset,
      align_down] <;>
    (try split_ifs) <;>
    first
      | rfl
      | omega

theorem initialize_call_frame_slots_witness :
    32 ≤ (Stack.mk 0 160).hi ∧
    ((initialize_call_frame 3 5 7 9 Registers.new (fun _ => 1)
        (Stack.mk 0 160)).1.gpr 0 = 7 ∧
    (initialize_call_frame 3 5 7 9 Registers.new (fun _ => 1)
        (Stack.mk 0 160)).1.gpr 1 = 9 ∧
    (initialize_call_frame 3 5 7 9 Registers.new (fun _ => 1)
        (Stack.mk 0 160)).1.gpr 2 = 5 ∧
    (initialize_call_frame 3 5 7 9 Registers.new (fun _ => 1)
        (Stack.mk 0 160)).1.gpr 10 = align_down 160 - 32 ∧
    (initialize_call_frame 3 5 7 9 Registers.new (fun _ => 1)
        (Stack.mk 0 160)).1.gpr 11 = 3 ∧
    (initialize_call_frame 3 5 7 9 Registers.new (fun _ => 1)
        (Stack.mk 0 160)).1.gpr 12 = align_down 160 - 32 ∧
    (initialize_call_frame 3 5 7 9 Registers.new (fun _ => 1)
        (Stack.mk 0 160)).2 (align_down 160) = 0 ∧
    (initialize_call_frame 3 5 7 9 Registers.new (fun _ => 1)
        (Stack.mk 0 160)).2 (align_down 160 - 8) = 0 ∧
    (initialize_call_frame 3 5 7 9 Registers.new (fun _ => 1)
        (Stack.mk 0 160)).2 (align_down 160 - 16) = 0 ∧
    (initialize_call_frame 3 5 7 9 Registers.new (fun _ => 1)
        (Stack.mk 0 160)).2 (align_down 160 - 24) = 0) :=
  ⟨by decide,
    initialize_call_frame_slots 3 5 7 9 Registers.new (fun _ => 1)
      (Stack.mk 0 160) (by decide)⟩

/-- C4, counterexample: on the aarch64 variant, `prefetch` is not skipped
when the saved stack pointer (slot 12) is the null sentinel — on an all-zero
record it still issues two hints — and the data hint it issues is for slot 1
(x20), not for the saved stack pointer. -/
theorem prefetch_not_skipped_on_null :
    Registers.new.gpr 12 = 0 ∧
    Registers.prefetch 0 Registers.new ≠ [] ∧
    Registers.prefetch 0 Registers.new = [0, Registers.new.gpr 1] := by
  refine ⟨rfl, ?_, rfl⟩
  simp [Registers.prefetch]

end A64

/-- C4, amended: the x86_64 variant of `prefetch` issues a cache hint for
the saved stack pointer and is skipped exactly when that pointer is the
null sentinel; the aarch64 variant unconditionally hints the record's own
address and slot 1 (x20), with no null-sentinel check. -/
theorem prefetch_variants (r : X64.Registers) (a : Nat) (q : A64.Registers) :
    (r.sp = 0 → r.prefetch = none) ∧
    (r.sp ≠ 0 → r.prefetch = some r.sp) ∧
    A64.Registers.prefetch a q = [a, q.gpr 1] := by
  refine ⟨fun h => ?_, fun h => ?_, rfl⟩ <;>
    simp [X64.Registers.prefetch, h]

end GenRs
